import Mathlib

/-
Verification of the grader utility module (grader/utils.py): shallow
embedding of its data model and operations, with theorems settling the
specification claims about execution classification, output validation,
source analysis and report generation.
-/

namespace Grader

/-- Embeds the ExecutionResult dataclass: outcome of one script execution. -/
structure ExecutionResult where
  stdout : String
  stderr : String
  timeout_occurred : Bool
  error : Bool
  return_code : Option Int := none
  error_message : Option String := none
deriving DecidableEq, Repr

/-- Embeds the OutputValidation dataclass. -/
structure OutputValidation where
  found_patterns : List String
  missing_patterns : List String
  total_patterns : Nat
deriving DecidableEq, Repr

/-- Embeds the LineIssue dataclass. -/
structure LineIssue where
  line_number : Nat
  issue_type : String
  line_content : String
  description : String
deriving DecidableEq, Repr

/-- Embeds the CodeAnalysis dataclass. -/
structure CodeAnalysis where
  line_issues : List LineIssue
  comment_count : Nat
  long_lines_count : Nat
  banned_patterns_count : Nat
  multiple_returns_count : Nat
deriving DecidableEq, Repr

/-- Outcome of the underlying subprocess.run call inside execute_script:
the process either completed (with captured streams and an exit code),
raised subprocess.TimeoutExpired, or raised some other exception while
being launched (msg embeds str(e)). The subprocess itself is external to
the module, so execute_script is embedded as a function of this outcome. -/
inductive RunOutcome where
  | completed (out err : String) (returncode : Int)
  | timedOut
  | launchFailure (msg : String)
deriving DecidableEq, Repr

/-- Embeds execute_script: classifies the run outcome into an ExecutionResult,
mirroring the try/except branches of the source. -/
def execute_script (timeout : Nat) (outcome : RunOutcome) : ExecutionResult :=
  match outcome with
  | .completed out err rc =>
      { stdout := out
        stderr := err
        timeout_occurred := false
        error := rc != 0
        return_code := some rc }
  | .timedOut =>
      { stdout := ""
        stderr := ""
        timeout_occurred := true
        error := true
        error_message := some ("Execution timed out after " ++ toString timeout ++ " seconds") }
  | .launchFailure msg =>
      { stdout := ""
        stderr := ""
        timeout_occurred := false
        error := true
        error_message := some ("Error executing script: " ++ msg) }

/-- Boolean substring test on character lists, structurally recursive. -/
def substr (pat : List Char) : List Char → Bool
  | [] => pat.isEmpty
  | c :: rest => pat.isPrefixOf (c :: rest) || substr pat rest

/-- Modelled from the Python stdlib: re.search(pattern, output, re.MULTILINE)
restricted to patterns free of regex metacharacters, for which a search
succeeds iff the pattern occurs as a (possibly empty) substring of the
output; the MULTILINE flag only alters the anchors, which such patterns do
not contain. -/
def re_search (pattern output : String) : Bool :=
  substr pattern.data output.data

/-- Embeds validate_output: the loop appending each pattern to found or
missing according to re.search is a filter of the pattern list. -/
def validate_output (output : String) (expected_patterns : List String) : OutputValidation :=
  { found_patterns := expected_patterns.filter (fun p => re_search p output)
    missing_patterns := expected_patterns.filter (fun p => !re_search p output)
    total_patterns := expected_patterns.length }

theorem substr_iff (pat : List Char) (s : List Char) :
    substr pat s = true ↔ pat <:+: s := by
  induction s with
  | nil =>
    simp [substr, List.isEmpty_iff]
  | cons c rest ih =>
    simp only [substr, Bool.or_eq_true, ih, List.infix_cons_iff,
      List.isPrefixOf_iff_prefix]

theorem missing_patterns_not_found (output : String) (patterns : List String)
    (p : String) (hp : p ∈ (validate_output output patterns).missing_patterns) :
    re_search p output = false := by
  have h := List.of_mem_filter hp
  simpa using h

/-- C3: every ExecutionResult returned by execute_script satisfies the record
invariant: timeoutOccurred implies error and an absent returnCode, and
absence of error implies returnCode 0 and an absent errorMessage. -/
theorem execute_script_invariant (timeout : Nat) (outcome : RunOutcome) :
    ((execute_script timeout outcome).timeout_occurred = true →
      (execute_script timeout outcome).error = true ∧
      (execute_script timeout outcome).return_code = none) ∧
    ((execute_script timeout outcome).error = false →
      (execute_script timeout outcome).return_code = some 0 ∧
      (execute_script timeout outcome).error_message = none) := by
  cases outcome with
  | completed out err rc =>
    refine ⟨fun h => by simp [execute_script] at h, fun h => ?_⟩
    simp only [execute_script, bne_eq_false_iff_eq] at h ⊢
    simp [h]
  | timedOut => exact ⟨fun _ => ⟨rfl, rfl⟩, fun h => by simp [execute_script] at h⟩
  | launchFailure msg => exact ⟨fun h => by simp [execute_script] at h, fun h => by simp [execute_script] at h⟩

theorem execute_script_invariant_witness :
    (((execute_script 5 RunOutcome.timedOut).timeout_occurred = true →
      (execute_script 5 RunOutcome.timedOut).error = true ∧
      (execute_script 5 RunOutcome.timedOut).return_code = none) ∧
    ((execute_script 5 RunOutcome.timedOut).error = false →
      (execute_script 5 RunOutcome.timedOut).return_code = some 0 ∧
      (execute_script 5 RunOutcome.timedOut).error_message = none)) ∧
    (execute_script 5 RunOutcome.timedOut).timeout_occurred = true :=
  ⟨execute_script_invariant 5 RunOutcome.timedOut, rfl⟩

/-- C6: on timeout, execute_script returns empty stdout and stderr,
timeoutOccurred and error set, no return code, and the exact message
"Execution timed out after N seconds" with the timeout value substituted. -/
theorem execute_script_timeout_fields (timeout : Nat) :
    execute_script timeout RunOutcome.timedOut =
      { stdout := ""
        stderr := ""
        timeout_occurred := true
        error := true
        return_code := none
        error_message := some ("Execution timed out after " ++ toString timeout ++ " seconds") } :=
  rfl

/-- C4: validate_output partitions the pattern list: found and missing are
each order-preserving subsequences of the input, their lengths sum to
totalPatterns which is the input length, and together they carry exactly
the input patterns. -/
theorem validate_output_partition (output : String) (patterns : List String) :
    List.Sublist (validate_output output patterns).found_patterns patterns ∧
    List.Sublist (validate_output output patterns).missing_patterns patterns ∧
    (validate_output output patterns).found_patterns.length +
      (validate_output output patterns).missing_patterns.length =
      (validate_output output patterns).total_patterns ∧
    (validate_output output patterns).total_patterns = patterns.length ∧
    ∀ p : String,
      (p ∈ (validate_output output patterns).found_patterns ++
        (validate_output output patterns).missing_patterns ↔ p ∈ patterns) := by
  have hperm := List.filter_append_perm (fun p => re_search p output) patterns
  refine ⟨List.filter_sublist patterns, List.filter_sublist patterns, ?_, rfl, ?_⟩
  · have := hperm.length_eq
    simpa [validate_output] using this
  · intro p
    simpa [validate_output] using hperm.mem_iff (a := p)

/-- C10: a pattern that is the empty string is always classified as found by
validate_output, for every output string, and never lands in the missing
patterns. -/
theorem empty_pattern_always_found (output : String) (patterns : List String)
    (h : "" ∈ patterns) :
    "" ∈ (validate_output output patterns).found_patterns ∧
    "" ∉ (validate_output output patterns).missing_patterns := by
  have hsearch : re_search "" output = true := by
    rw [re_search, substr_iff]
    exact ⟨[], output.data, rfl⟩
  constructor
  · exact List.mem_filter.mpr ⟨h, hsearch⟩
  · intro hmem
    have := missing_patterns_not_found output patterns "" hmem
    rw [hsearch] at this
    cases this

theorem empty_pattern_always_found_witness :
    "" ∈ ["Hello", ""] ∧
    ("" ∈ (validate_output "abc" ["Hello", ""]).found_patterns ∧
     "" ∉ (validate_output "abc" ["Hello", ""]).missing_patterns) :=
  ⟨by decide, empty_pattern_always_found "abc" ["Hello", ""] (by decide)⟩

/-- Modelled from the Python stdlib for ASCII text: the word-character class
of the regex \b boundary (letters, digits, underscore). -/
def isWordChar (c : Char) : Bool :=
  c.isAlphanum || c == '_'

/-- Holds when the neighbouring character (none at the ends of the line) is
absent or not a word character, which is the regex \b condition next to a
word-character-delimited literal. -/
def boundaryOk : Option Char → Bool
  | none => true
  | some c => !isWordChar c

/-- The literal word matches at the head of s with word boundaries on both
sides, prev being the character just before this position. -/
def wordHere (w : List Char) (prev : Option Char) (s : List Char) : Bool :=
  w.isPrefixOf s && boundaryOk prev && boundaryOk (s.drop w.length).head?

def searchWordAux (w : List Char) (prev : Option Char) : List Char → Bool
  | [] => wordHere w prev []
  | c :: rest => wordHere w prev (c :: rest) || searchWordAux w (some c) rest

/-- Modelled from the Python stdlib for ASCII text: re.search of a
word-boundary-delimited literal regex of word characters, matching the
patterns \bbreak\b and \bcontinue\b of the source: succeeds iff the word
occurs at some position whose two neighbours are absent or non-word. -/
def searchWord (word : String) (line : String) : Bool :=
  searchWordAux word.data none line.data

/-- The regex \bwhile\s+True\b matches at the head of s: boundary before,
the literal while, at least one whitespace character, the literal True,
boundary after. Since T is not whitespace, taking the maximal whitespace
run is exactly the backtracking semantics of \s+ here. -/
def whileTrueHere (prev : Option Char) (s : List Char) : Bool :=
  boundaryOk prev && "while".data.isPrefixOf s &&
    (let rest := (s.drop 5).dropWhile (fun c => c.isWhitespace)
     decide (0 < ((s.drop 5).takeWhile (fun c => c.isWhitespace)).length) &&
       "True".data.isPrefixOf rest && boundaryOk (rest.drop 4).head?)

def searchWhileTrueAux (prev : Option Char) : List Char → Bool
  | [] => whileTrueHere prev []
  | c :: rest => whileTrueHere prev (c :: rest) || searchWhileTrueAux (some c) rest

/-- Modelled from the Python stdlib for ASCII text: re.search of the source
regex \bwhile\s+True\b against a line. -/
def searchWhileTrue (line : String) : Bool :=
  searchWhileTrueAux none line.data

/-- Number of whitespace-separated words in a character list, counting word
starts; embeds len(str.split()) of the Python source. -/
def wordsCountAux : List Char → Bool → Nat
  | [], _ => 0
  | c :: rest, inWord =>
      if c.isWhitespace then wordsCountAux rest false
      else (if inWord then 0 else 1) + wordsCountAux rest true

/-- Embeds count_words_in_line: re.sub removes everything from the first
comment marker onward, then the remaining whitespace-delimited words are
counted. Lines are modelled without their trailing newline, which is
whitespace and so never affects the count. -/
def count_words_in_line (line : String) : Nat :=
  wordsCountAux (line.data.takeWhile (fun c => c != '#')) false

/-- Embeds str.strip of the Python source: leading and trailing whitespace
removed. -/
def pyStrip (line : String) : String :=
  String.mk (((line.data.dropWhile (fun c => c.isWhitespace)).reverse.dropWhile
    (fun c => c.isWhitespace)).reverse)

/-- The banned_patterns dict of analyze_code, in declaration order: each
entry pairs the compiled check of its regex with its description. -/
def bannedChecks : List ((String → Bool) × String) :=
  [ (searchWord "break", "Use of \x27break\x27 statement"),
    (searchWord "continue", "Use of \x27continue\x27 statement"),
    (searchWhileTrue, "Use of \x27while True\x27 infinite loop") ]

/-- Accumulator of the line-oriented loop of analyze_code. -/
structure ScanState where
  line_issues : List LineIssue
  comment_count : Nat
  long_lines_count : Nat
  banned_patterns_count : Nat
deriving DecidableEq, Repr

/-- Embeds one iteration of the line loop of analyze_code: comment
counting, the long-line check, then the banned-pattern checks in
declaration order. -/
def scanLine (st : ScanState) (line_number : Nat) (line : String) : ScanState :=
  let st1 :=
    if "#".data.isPrefixOf (pyStrip line).data || line.data.any (fun c => c == '#') then
      { st with comment_count := st.comment_count + 1 }
    else st
  let word_count := count_words_in_line line
  let st2 :=
    if 100 < word_count then
      { st1 with
        long_lines_count := st1.long_lines_count + 1
        line_issues := st1.line_issues ++
          [ { line_number := line_number
              issue_type := "LONG_LINE"
              line_content := pyStrip line
              description := "Line exceeds 100 words (contains " ++ toString word_count ++ " words)" } ] }
    else st1
  bannedChecks.foldl
    (fun acc chk =>
      if chk.1 line then
        { acc with
          banned_patterns_count := acc.banned_patterns_count + 1
          line_issues := acc.line_issues ++
            [ { line_number := line_number
                issue_type := "BANNED_PATTERN"
                line_content := pyStrip line
                description := chk.2 } ] }
      else acc)
    st2

/-- Embeds the whole line-oriented pass of analyze_code over the physical
lines of the file, numbered from 1. -/
def lineScan (lines : List String) : ScanState :=
  (List.enumFrom 1 lines).foldl (fun st p => scanLine st p.1 p.2)
    { line_issues := [], comment_count := 0, long_lines_count := 0, banned_patterns_count := 0 }

/-- Fragment of the Python abstract syntax tree relevant to
ReturnStatementVisitor: a return statement, a function definition with its
statement body, and any other statement with its list of child statements
(if, while, for, with, and so on; leaf statements have an empty list).
Return carries no statements, since expressions cannot contain return. -/
inductive Py where
  | ret : Py
  | funcDef (name : String) (body : List Py) : Py
  | other (children : List Py) : Py

/-- Embeds the ast.walk count of visit_FunctionDef applied to a statement
list: the number of Return nodes anywhere below, descending into nested
function definitions exactly as ast.walk does. -/
def countReturnsList : List Py → Nat
  | [] => 0
  | .ret :: ps => 1 + countReturnsList ps
  | .funcDef _ body :: ps => countReturnsList body + countReturnsList ps
  | .other cs :: ps => countReturnsList cs + countReturnsList ps

/-- Embeds assignment into the functions_with_multiple_returns dict:
insertion-ordered, an existing key keeps its position and takes the new
value. -/
def dictInsert (d : List (String × Nat)) (k : String) (v : Nat) : List (String × Nat) :=
  if d.any (fun p => p.1 == k) then
    d.map (fun p => if p.1 == k then (k, v) else p)
  else d ++ [(k, v)]

/-- Embeds ReturnStatementVisitor.visit over a statement list: every
function definition whose ast.walk return count exceeds 1 is recorded
under its name (in pre-order, before generic_visit descends into the
body), and traversal continues into all children. -/
def visitNodeList (d : List (String × Nat)) : List Py → List (String × Nat)
  | [] => d
  | .ret :: ps => visitNodeList d ps
  | .funcDef name body :: ps =>
      let rc := countReturnsList body
      let d1 := if 1 < rc then dictInsert d name rc else d
      visitNodeList (visitNodeList d1 body) ps
  | .other cs :: ps => visitNodeList (visitNodeList d cs) ps

/-- Return count prescribed by the specification sentence for comparison
with countReturnsList: only the returns lexically owned by the enclosing
scope, not descending into nested function definitions. -/
def ownReturnsList : List Py → Nat
  | [] => 0
  | .ret :: ps => 1 + ownReturnsList ps
  | .funcDef _ _ :: ps => ownReturnsList ps
  | .other cs :: ps => ownReturnsList cs + ownReturnsList ps

/-- Some function definition named n somewhere in the statement list has an
ast.walk return count exceeding 1. -/
def hasOffendingDefList (n : String) : List Py → Bool
  | [] => false
  | .ret :: ps => hasOffendingDefList n ps
  | .funcDef m body :: ps =>
      (m == n && decide (1 < countReturnsList body)) || hasOffendingDefList n body ||
        hasOffendingDefList n ps
  | .other cs :: ps => hasOffendingDefList n cs || hasOffendingDefList n ps

/-- Location and message of the SyntaxError raised by ast.parse; msg embeds
str(e) and lineno is present exactly when the parser reported a line. -/
structure SyntaxErrorInfo where
  lineno : Option Nat
  msg : String
deriving DecidableEq, Repr

/-- Embeds the tree pass of analyze_code: the issue appended for one entry
of functions_with_multiple_returns. -/
def multipleReturnsIssue (e : String × Nat) : LineIssue :=
  { line_number := 0
    issue_type := "MULTIPLE_RETURNS"
    line_content := "Function: " ++ e.1
    description := "Function contains " ++ toString e.2 ++ " return statements" }

/-- Embeds analyze_code. The file is modelled as its list of physical lines
(without trailing newlines, which affect none of the checks) together with
the result of the external stdlib ast.parse on the same snapshot: either
the statement list of the module body, or the SyntaxError it raised. -/
def analyze_code (lines : List String) (parse_result : Except SyntaxErrorInfo (List Py)) :
    CodeAnalysis :=
  let st := lineScan lines
  match parse_result with
  | .ok body =>
      let d := visitNodeList [] body
      { line_issues := st.line_issues ++ d.map multipleReturnsIssue
        comment_count := st.comment_count
        long_lines_count := st.long_lines_count
        banned_patterns_count := st.banned_patterns_count
        multiple_returns_count := d.length }
  | .error e =>
      { line_issues := st.line_issues ++
          [ { line_number := e.lineno.getD 0
              issue_type := "SYNTAX_ERROR"
              line_content := ""
              description := "Syntax error: " ++ e.msg } ]
        comment_count := st.comment_count
        long_lines_count := st.long_lines_count
        banned_patterns_count := st.banned_patterns_count
        multiple_returns_count := 0 }

theorem foldl_inv {α β : Type _} (P : α → Prop) (f : α → β → α) (l : List β) (a : α)
    (h0 : P a) (hstep : ∀ x b, P x → P (f x b)) : P (l.foldl f a) := by
  induction l generalizing a with
  | nil => exact h0
  | cons b bs ih => exact ih (f a b) (hstep a b h0)

theorem scanLine_types (st : ScanState) (n : Nat) (line : String)
    (h : ∀ i ∈ st.line_issues, i.issue_type = "LONG_LINE" ∨ i.issue_type = "BANNED_PATTERN") :
    ∀ i ∈ (scanLine st n line).line_issues,
      i.issue_type = "LONG_LINE" ∨ i.issue_type = "BANNED_PATTERN" := by
  unfold scanLine
  dsimp only
  refine foldl_inv
    (fun s : ScanState => ∀ i ∈ s.line_issues,
      i.issue_type = "LONG_LINE" ∨ i.issue_type = "BANNED_PATTERN")
    _ _ _ ?_ ?_
  · split_ifs <;>
      (intro i hi
       first
         | exact h i hi
         | (simp only [List.mem_append, List.mem_singleton] at hi
            rcases hi with hi | hi
            · exact h i hi
            · simp [hi]))
  · intro x b hx
    dsimp only
    split
    · intro i hi
      simp only [List.mem_append, List.mem_singleton] at hi
      rcases hi with hi | hi
      · exact hx i hi
      · simp [hi]
    · exact hx

theorem lineScan_types (lines : List String) :
    ∀ i ∈ (lineScan lines).line_issues,
      i.issue_type = "LONG_LINE" ∨ i.issue_type = "BANNED_PATTERN" := by
  unfold lineScan
  exact foldl_inv
    (fun s => ∀ i ∈ s.line_issues, i.issue_type = "LONG_LINE" ∨ i.issue_type = "BANNED_PATTERN")
    (fun st p => scanLine st p.1 p.2)
    (List.enumFrom 1 lines)
    { line_issues := [], comment_count := 0, long_lines_count := 0, banned_patterns_count := 0 }
    (by simp)
    (fun st p hp => scanLine_types st p.1 p.2 hp)

/-- C5: when the parse fails, analyze_code reports multipleReturnsCount 0,
keeps every line-scan issue, and appends exactly one SYNTAX_ERROR issue
whose lineNumber is the parser-reported line when present and 0 otherwise. -/
theorem analyze_code_syntax_error (lines : List String) (e : SyntaxErrorInfo) :
    (analyze_code lines (Except.error e)).multiple_returns_count = 0 ∧
    (analyze_code lines (Except.error e)).line_issues =
      (lineScan lines).line_issues ++
        [ { line_number := e.lineno.getD 0
            issue_type := "SYNTAX_ERROR"
            line_content := ""
            description := "Syntax error: " ++ e.msg } ] ∧
    ((analyze_code lines (Except.error e)).line_issues.filter
        (fun i => i.issue_type == "SYNTAX_ERROR")).length = 1 := by
  refine ⟨rfl, rfl, ?_⟩
  have h := lineScan_types lines
  have hnil : (lineScan lines).line_issues.filter (fun i => i.issue_type == "SYNTAX_ERROR") = [] := by
    rw [List.filter_eq_nil_iff]
    intro i hi
    rcases h i hi with h' | h' <;> simp [h']
  simp [analyze_code, List.filter_append, hnil]

/-- Modelled from the Python stdlib: os.path.basename for POSIX paths, the
suffix after the last slash. -/
def basename (p : String) : String :=
  String.mk ((p.data.reverse.takeWhile (fun c => c != '/')).reverse)

/-- Python f-string rendering of an optional string: None prints as the
literal None. -/
def pyStrOptStr : Option String → String
  | none => "None"
  | some s => s

/-- Python f-string rendering of an optional integer: None prints as the
literal None. -/
def pyStrOptInt : Option Int → String
  | none => "None"
  | some n => toString n

/-- Embeds the Execution section of generate_report: the three-way branch
on timeoutOccurred and error. -/
def execution_section (r : ExecutionResult) : List String :=
  if r.timeout_occurred then
    ["[!] " ++ pyStrOptStr r.error_message]
  else if r.error then
    ["[!] Script exited with error (return code: " ++ pyStrOptInt r.return_code ++ ")"] ++
      (if r.stderr != "" then ["\nError output:", r.stderr] else [])
  else
    ["[✓] Script executed successfully"]

/-- Embeds the Output Validation section of generate_report: every found
pattern then every missing pattern, each tagged and quoted. -/
def validation_section (v : OutputValidation) : List String :=
  v.found_patterns.map (fun p => "[✓] Found: \"" ++ p ++ "\"") ++
    v.missing_patterns.map (fun p => "[✗] Missing: \"" ++ p ++ "\"")

/-- Embeds the per-issue rendering of the Code Analysis section, one case
per issue type; an unknown type renders nothing. -/
def issue_entries (issue : LineIssue) : List String :=
  if issue.issue_type == "LONG_LINE" then
    ["[!] Line " ++ toString issue.line_number ++ ": " ++ issue.description]
  else if issue.issue_type == "BANNED_PATTERN" then
    ["[!] Line " ++ toString issue.line_number ++ ": " ++ issue.description,
     "    " ++ issue.line_content]
  else if issue.issue_type == "MULTIPLE_RETURNS" then
    ["[!] " ++ issue.description ++ " in " ++ issue.line_content]
  else if issue.issue_type == "SYNTAX_ERROR" then
    ["[!] Line " ++ toString issue.line_number ++ ": " ++ issue.description]
  else []

/-- Embeds the Code Analysis section of generate_report. -/
def analysis_section (a : CodeAnalysis) : List String :=
  ["\nCode Analysis:", "[i] Comment count: " ++ toString a.comment_count] ++
    (if a.line_issues != [] then
      ["\nIssues Found:"] ++ (a.line_issues.map issue_entries).flatten
    else
      ["[✓] No code issues found"])

/-- Embeds the Summary section of generate_report, with the issue count
computed from the three analysis counters. -/
def summary_section (v : OutputValidation) (a : CodeAnalysis) : List String :=
  ["\nSummary:",
   "- Output Validation: " ++ toString v.found_patterns.length ++ "/" ++
     toString v.total_patterns ++ " checks passed",
   "- Code Analysis: " ++
     toString (a.long_lines_count + a.banned_patterns_count + a.multiple_returns_count) ++
     " issues found"]

/-- The report_lines list of generate_report, appended section by section
in source order. -/
def report_lines (script_path : String) (r : ExecutionResult) (v : OutputValidation)
    (a : CodeAnalysis) : List String :=
  ["Grading Report for " ++ basename script_path,
   "----------------------------------------",
   "Execution:"] ++
    execution_section r ++
    ["\nOutput Validation:"] ++
    validation_section v ++
    analysis_section a ++
    summary_section v a

/-- Embeds str.join of the Python source with the given separator. -/
def joinWith (sep : String) : List String → String
  | [] => ""
  | [a] => a
  | a :: b :: rest => a ++ sep ++ joinWith sep (b :: rest)

/-- Embeds generate_report: the report_lines joined with newlines. -/
def generate_report (script_path : String) (r : ExecutionResult) (v : OutputValidation)
    (a : CodeAnalysis) : String :=
  joinWith "\n" (report_lines script_path r v a)

theorem mem_joinWith_substring (sep : String) :
    ∀ (l : List String) (a : String), a ∈ l → a.data <:+: (joinWith sep l).data
  | [x], a, h => by
    have hax : a = x := by simpa using h
    subst hax
    exact List.infix_rfl
  | x :: y :: t, a, h => by
    rcases List.mem_cons.mp h with hax | htail
    · subst hax
      exact ⟨[], sep.data ++ (joinWith sep (y :: t)).data, by
        simp [joinWith, String.data_append]⟩
    · obtain ⟨s, u, hsu⟩ := mem_joinWith_substring sep (y :: t) a htail
      exact ⟨x.data ++ sep.data ++ s, u, by
        simp only [joinWith, String.data_append, ← hsu, List.append_assoc]⟩

/-- C2 (amended): for every ExecutionResult with timeoutOccurred set whose
errorMessage is present, the report returned by generate_report contains
that errorMessage verbatim. Launch-failure messages are not rendered, as
the counterexample shows. -/
theorem timeout_error_message_in_report (p : String) (r : ExecutionResult)
    (v : OutputValidation) (a : CodeAnalysis) (msg : String)
    (ht : r.timeout_occurred = true) (hm : r.error_message = some msg) :
    msg.data <:+: (generate_report p r v a).data := by
  have hline : ("[!] " ++ msg) ∈ report_lines p r v a := by
    simp [report_lines, execution_section, ht, hm, pyStrOptStr]
  have h1 : msg.data <:+: ("[!] " ++ msg).data :=
    ⟨"[!] ".data, [], by simp [String.data_append]⟩
  exact h1.trans (mem_joinWith_substring "\n" (report_lines p r v a) _ hline)

set_option maxRecDepth 40000 in
theorem timeout_error_message_in_report_witness :
    (execute_script 2 RunOutcome.timedOut).timeout_occurred = true ∧
    (execute_script 2 RunOutcome.timedOut).error_message =
      some "Execution timed out after 2 seconds" ∧
    "Execution timed out after 2 seconds".data <:+:
      (generate_report "s.py" (execute_script 2 RunOutcome.timedOut)
        { found_patterns := [], missing_patterns := [], total_patterns := 0 }
        { line_issues := [], comment_count := 0, long_lines_count := 0,
          banned_patterns_count := 0, multiple_returns_count := 0 }).data :=
  ⟨rfl, rfl, timeout_error_message_in_report _ _ _ _ _ rfl rfl⟩

set_option maxRecDepth 40000 in
/-- C2 counterexample: a launch failure has its errorMessage present, yet
the report renders only a generic exit line, so the message is not
contained in the report string. -/
theorem launch_failure_message_omitted :
    (execute_script 5 (RunOutcome.launchFailure "boom")).error_message =
      some "Error executing script: boom" ∧
    ¬ ("Error executing script: boom".data <:+:
        (generate_report "s.py" (execute_script 5 (RunOutcome.launchFailure "boom"))
          { found_patterns := [], missing_patterns := [], total_patterns := 0 }
          { line_issues := [], comment_count := 0, long_lines_count := 0,
            banned_patterns_count := 0, multiple_returns_count := 0 }).data) := by
  refine ⟨rfl, fun h => ?_⟩
  rw [← substr_iff] at h
  exact absurd h (by decide)

/-- C7: the summary of every report shows a total issue count equal to
longLinesCount + bannedPatternsCount + multipleReturnsCount, so
SYNTAX_ERROR issues contribute nothing to the printed total. -/
theorem report_issue_count (p : String) (r : ExecutionResult) (v : OutputValidation)
    (a : CodeAnalysis) :
    ("- Code Analysis: " ++
        toString (a.long_lines_count + a.banned_patterns_count + a.multiple_returns_count) ++
        " issues found").data <:+: (generate_report p r v a).data := by
  apply mem_joinWith_substring
  simp [report_lines, summary_section]

/-- C8: the word-boundary banned-pattern check fires on a line holding
break as a standalone token and stays silent on a line where break only
occurs inside the identifier breakfast. -/
theorem break_word_boundary :
    (lineScan ["break  # loop exit"]).banned_patterns_count = 1 ∧
    ((lineScan ["break  # loop exit"]).line_issues.filter
        (fun i => i.issue_type == "BANNED_PATTERN")).length = 1 ∧
    (lineScan ["breakfast"]).banned_patterns_count = 0 ∧
    ((lineScan ["breakfast"]).line_issues.filter
        (fun i => i.issue_type == "BANNED_PATTERN")).length = 0 :=
  ⟨by decide, by decide, by decide, by decide⟩

theorem keys_dictInsert_overwrite (d : List (String × Nat)) (k : String) (v : Nat) :
    (d.map (fun p => if p.1 == k then (k, v) else p)).map Prod.fst = d.map Prod.fst := by
  rw [List.map_map]
  apply List.map_congr_left
  intro p _
  by_cases h : p.1 = k
  · simp [h]
  · simp [h]

theorem keys_dictInsert (d : List (String × Nat)) (k : String) (v : Nat) (n : String) :
    n ∈ (dictInsert d k v).map Prod.fst ↔ n ∈ d.map Prod.fst ∨ n = k := by
  unfold dictInsert
  split
  · rename_i hany
    rw [keys_dictInsert_overwrite]
    have hk : k ∈ d.map Prod.fst := by
      rcases List.any_eq_true.mp hany with ⟨p, hp, hpk⟩
      have hpk' : p.1 = k := by simpa using hpk
      exact hpk' ▸ List.mem_map_of_mem Prod.fst hp
    constructor
    · exact Or.inl
    · rintro (h | rfl)
      · exact h
      · exact hk
  · simp [List.map_append]

theorem nodup_keys_dictInsert (d : List (String × Nat)) (k : String) (v : Nat)
    (h : (d.map Prod.fst).Nodup) : ((dictInsert d k v).map Prod.fst).Nodup := by
  unfold dictInsert
  split
  · rwa [keys_dictInsert_overwrite]
  · rename_i hany
    have hk : k ∉ d.map Prod.fst := by
      intro hmem
      rcases List.mem_map.mp hmem with ⟨p, hp, hpk⟩
      have : d.any (fun p => p.1 == k) = true :=
        List.any_eq_true.mpr ⟨p, hp, by simp [hpk]⟩
      simp_all
    simp only [List.map_append, List.map_cons, List.map_nil]
    rw [List.nodup_append]
    refine ⟨h, List.nodup_singleton k, ?_⟩
    intro a ha hak
    have hak' : a = k := by simpa using hak
    exact hk (hak' ▸ ha)

theorem keys_visitNodeList :
    ∀ (l : List Py) (d : List (String × Nat)) (n : String),
      n ∈ (visitNodeList d l).map Prod.fst ↔
        n ∈ d.map Prod.fst ∨ hasOffendingDefList n l = true
  | [], d, n => by simp [visitNodeList, hasOffendingDefList]
  | .ret :: ps, d, n => by
    rw [show visitNodeList d (.ret :: ps) = visitNodeList d ps from by
      simp [visitNodeList]]
    simp only [hasOffendingDefList]
    exact keys_visitNodeList ps d n
  | .funcDef name body :: ps, d, n => by
    have hstep : visitNodeList d (.funcDef name body :: ps) =
        visitNodeList
          (visitNodeList
            (if 1 < countReturnsList body then
              dictInsert d name (countReturnsList body)
            else d) body) ps := by
      simp [visitNodeList]
    rw [hstep, keys_visitNodeList ps _ n, keys_visitNodeList body _ n]
    simp only [hasOffendingDefList, Bool.or_eq_true, Bool.and_eq_true, beq_iff_eq,
      decide_eq_true_eq]
    by_cases hrc : 1 < countReturnsList body
    · rw [if_pos hrc]
      rw [keys_dictInsert]
      constructor
      · rintro ((( h | rfl) | h) | h)
        · exact Or.inl h
        · exact Or.inr (Or.inl (Or.inl ⟨rfl, hrc⟩))
        · exact Or.inr (Or.inl (Or.inr h))
        · exact Or.inr (Or.inr h)
      · rintro (h | ((⟨rfl, _⟩ | h) | h))
        · exact Or.inl (Or.inl (Or.inl h))
        · exact Or.inl (Or.inl (Or.inr rfl))
        · exact Or.inl (Or.inr h)
        · exact Or.inr h
    · rw [if_neg hrc]
      constructor
      · rintro ((h | h) | h)
        · exact Or.inl h
        · exact Or.inr (Or.inl (Or.inr h))
        · exact Or.inr (Or.inr h)
      · rintro (h | ((⟨rfl, hc⟩ | h) | h))
        · exact Or.inl (Or.inl h)
        · exact absurd hc hrc
        · exact Or.inl (Or.inr h)
        · exact Or.inr h
  | .other cs :: ps, d, n => by
    have hstep : visitNodeList d (.other cs :: ps) =
        visitNodeList (visitNodeList d cs) ps := by
      simp [visitNodeList]
    rw [hstep, keys_visitNodeList ps _ n, keys_visitNodeList cs _ n]
    simp only [hasOffendingDefList, Bool.or_eq_true]
    tauto

theorem nodup_keys_visitNodeList :
    ∀ (l : List Py) (d : List (String × Nat)),
      (d.map Prod.fst).Nodup → ((visitNodeList d l).map Prod.fst).Nodup
  | [], _, h => by simpa [visitNodeList] using h
  | .ret :: ps, d, h => by
    rw [show visitNodeList d (.ret :: ps) = visitNodeList d ps from by
      simp [visitNodeList]]
    exact nodup_keys_visitNodeList ps d h
  | .funcDef name body :: ps, d, h => by
    have hstep : visitNodeList d (.funcDef name body :: ps) =
        visitNodeList
          (visitNodeList
            (if 1 < countReturnsList body then
              dictInsert d name (countReturnsList body)
            else d) body) ps := by
      simp [visitNodeList]
    rw [hstep]
    apply nodup_keys_visitNodeList ps
    apply nodup_keys_visitNodeList body
    split
    · exact nodup_keys_dictInsert d name _ h
    · exact h
  | .other cs :: ps, d, h => by
    have hstep : visitNodeList d (.other cs :: ps) =
        visitNodeList (visitNodeList d cs) ps := by
      simp [visitNodeList]
    rw [hstep]
    exact nodup_keys_visitNodeList ps _ (nodup_keys_visitNodeList cs d h)

theorem string_append_right_inj (s a b : String) (h : s ++ a = s ++ b) : a = b := by
  have hd : (s ++ a).data = (s ++ b).data := congrArg String.data h
  simp only [String.data_append] at hd
  exact String.ext (List.append_cancel_left hd)

theorem analyze_ok_mr_filter (lines : List String) (body : List Py) :
    (analyze_code lines (Except.ok body)).line_issues.filter
        (fun i => i.issue_type == "MULTIPLE_RETURNS") =
      (visitNodeList [] body).map multipleReturnsIssue := by
  have h := lineScan_types lines
  have hnil : (lineScan lines).line_issues.filter
      (fun i => i.issue_type == "MULTIPLE_RETURNS") = [] := by
    rw [List.filter_eq_nil_iff]
    intro i hi
    rcases h i hi with h' | h' <;> simp [h']
  have hall : ((visitNodeList [] body).map multipleReturnsIssue).filter
      (fun i => i.issue_type == "MULTIPLE_RETURNS") =
      (visitNodeList [] body).map multipleReturnsIssue := by
    rw [List.filter_eq_self]
    intro i hi
    rcases List.mem_map.mp hi with ⟨e, _, he⟩
    simp [← he, multipleReturnsIssue]
  simp [analyze_code, List.filter_append, hnil, hall]

/-- C1 (amended): the return count the analyzer attributes to a function
definition is its ast.walk count, which includes return statements inside
nested function definitions; a MULTIPLE_RETURNS issue naming n is recorded
exactly when some function definition named n has a subtree return count
exceeding 1. -/
theorem multiple_returns_walk_attribution (lines : List String) (body : List Py) (n : String) :
    ((analyze_code lines (Except.ok body)).line_issues.any
        (fun i => i.issue_type == "MULTIPLE_RETURNS" &&
          i.line_content == "Function: " ++ n)) = true ↔
      hasOffendingDefList n body = true := by
  have hfilter := analyze_ok_mr_filter lines body
  have hany : (analyze_code lines (Except.ok body)).line_issues.any
      (fun i => i.issue_type == "MULTIPLE_RETURNS" && i.line_content == "Function: " ++ n) =
      ((analyze_code lines (Except.ok body)).line_issues.filter
        (fun i => i.issue_type == "MULTIPLE_RETURNS")).any
          (fun i => i.line_content == "Function: " ++ n) := by
    rw [List.any_filter]
  rw [hany, hfilter]
  constructor
  · intro hx
    rcases List.any_eq_true.mp hx with ⟨i, hi, hpi⟩
    rcases List.mem_map.mp hi with ⟨e, he, hei⟩
    have he1 : e.1 = n := by
      have : "Function: " ++ e.1 = "Function: " ++ n := by
        simpa [← hei, multipleReturnsIssue] using hpi
      exact string_append_right_inj _ _ _ this
    have : n ∈ (visitNodeList ([] : List (String × Nat)) body).map Prod.fst :=
      he1 ▸ List.mem_map_of_mem Prod.fst he
    have hk := (keys_visitNodeList body [] n).mp this
    simpa using hk
  · intro hoff
    have : n ∈ (visitNodeList ([] : List (String × Nat)) body).map Prod.fst :=
      (keys_visitNodeList body [] n).mpr (Or.inr hoff)
    rcases List.mem_map.mp this with ⟨e, he, he1⟩
    exact List.any_eq_true.mpr
      ⟨multipleReturnsIssue e, List.mem_map_of_mem multipleReturnsIssue he,
        by simp [multipleReturnsIssue, he1]⟩

/-- C1 counterexample: f lexically owns no return statement, only its
nested def g does, yet analyze_code records a MULTIPLE_RETURNS issue for f
and counts both f and g, refuting the claimed exclusion of nested
definitions. -/
theorem nested_def_counterexample :
    ownReturnsList [Py.funcDef "g" [Py.ret, Py.ret]] = 0 ∧
    (analyze_code []
        (Except.ok [Py.funcDef "f" [Py.funcDef "g" [Py.ret, Py.ret]]])).line_issues.map
        (fun i => i.line_content) = ["Function: f", "Function: g"] ∧
    (analyze_code []
        (Except.ok [Py.funcDef "f" [Py.funcDef "g" [Py.ret, Py.ret]]])).multiple_returns_count
      = 2 := by
  refine ⟨by simp [ownReturnsList], ?_, ?_⟩ <;>
    simp [analyze_code, lineScan, visitNodeList, countReturnsList, dictInsert,
      multipleReturnsIssue]

/-- Two function definitions sharing the name f, each with more than one
return statement. -/
def twoSameName : List Py :=
  [Py.funcDef "f" [Py.ret, Py.ret], Py.funcDef "f" [Py.ret, Py.ret, Py.ret]]

/-- C9: multiple-return findings are keyed by function name: for every
parsed script the MULTIPLE_RETURNS issues carry pairwise-distinct function
labels and multipleReturnsCount equals their number, and on a script with
two same-named offending definitions exactly one issue is produced,
holding the count of the later definition. -/
theorem multiple_returns_keyed_by_name :
    (∀ (lines : List String) (body : List Py),
      ((((analyze_code lines (Except.ok body)).line_issues.filter
          (fun i => i.issue_type == "MULTIPLE_RETURNS")).map
            (fun i => i.line_content)).Nodup ∧
        (analyze_code lines (Except.ok body)).multiple_returns_count =
          ((analyze_code lines (Except.ok body)).line_issues.filter
            (fun i => i.issue_type == "MULTIPLE_RETURNS")).length)) ∧
    (analyze_code [] (Except.ok twoSameName)).multiple_returns_count = 1 ∧
    ((analyze_code [] (Except.ok twoSameName)).line_issues.filter
        (fun i => i.issue_type == "MULTIPLE_RETURNS")).map (fun i => i.line_content) =
      ["Function: f"] ∧
    ((analyze_code [] (Except.ok twoSameName)).line_issues.filter
        (fun i => i.issue_type == "MULTIPLE_RETURNS")).map (fun i => i.description) =
      ["Function contains 3 return statements"] := by
  refine ⟨fun lines body => ⟨?_, ?_⟩, ?_, ?_, ?_⟩
  · rw [analyze_ok_mr_filter]
    have hkeys : ((visitNodeList [] body).map Prod.fst).Nodup :=
      nodup_keys_visitNodeList body [] (by simp)
    have hmap : ((visitNodeList [] body).map multipleReturnsIssue).map
        (fun i => i.line_content) =
        ((visitNodeList [] body).map Prod.fst).map (fun k => "Function: " ++ k) := by
      simp [List.map_map, multipleReturnsIssue, Function.comp]
    rw [hmap]
    exact hkeys.map (fun a b hab => string_append_right_inj _ a b hab)
  · rw [analyze_ok_mr_filter]
    simp [analyze_code]
  · simp [analyze_code, lineScan, twoSameName, visitNodeList, countReturnsList, dictInsert]
  · rw [analyze_ok_mr_filter]
    simp [twoSameName, visitNodeList, countReturnsList, dictInsert, multipleReturnsIssue]
  · rw [analyze_ok_mr_filter]
    simp [twoSameName, visitNodeList, countReturnsList, dictInsert, multipleReturnsIssue]
    rfl

end Grader
